/-
Verification of the AI_foto_ideas feedback core against its design
specification.

This file shallowly embeds the trust-and-ingestion layer of the
repository (src/feedback_api.py and the digest-building part of
src/main.py) in Lean 4:

* the capability token codec (`verify_signature`, `issue_signature`),
  parameterized over the hex digest function `hmacHex` (the HMAC-SHA256
  hexdigest of the configured secret and the id), since every property
  verified here holds uniformly in that function;
* the sliding-window rate limiter (`check_rate_limit`) over integer
  timestamps;
* the record store and the two request handlers (`submit_feedback`,
  `feedback_form`, `import_recipe`), modelled as pure functions from a
  server state (rate-limit store plus per-category file states) to a
  result and a new state;
* the feedback digest builder from `generate_idea` in src/main.py.

Python floats for timestamps are modelled as integers; ratings and
averages are rationals, with Python's float average and `round(x, 1)`
modelled exactly (the mean is taken to the nearest binary64 value
before decimal rounding, see `toBinary64`); the MD5 submitter
fingerprint is parameterized like the HMAC digest.
-/
import Mathlib

namespace FotoIdeas

/-! ## Basic string helpers mirroring the Python string operations -/

/-- Python `s[:n]` on a string: the first `n` code points. -/
def strTake (s : String) (n : Nat) : String := String.mk (s.data.take n)

/-- Python's `str.strip()` whitespace test (ASCII whitespace; the
handlers only ever strip user comments, for which this is the relevant
set). -/
def isPySpace (c : Char) : Bool :=
  c == ' ' || c == '\t' || c == '\n' || c == '\r' || c == '\x0b' || c == '\x0c'

/-- Python `s.strip()`: drop leading and trailing whitespace. -/
def pyStrip (s : String) : String :=
  String.mk (((s.data.dropWhile isPySpace).reverse.dropWhile isPySpace).reverse)

/-- Python `idea_id.split('_')[0]`: the prefix before the first
underscore (the whole string when it has none). -/
def categoryOf (idea_id : String) : String :=
  String.mk (idea_id.data.takeWhile (fun c => c != '_'))

/-- Replace the character at position `i` of `s` by `c` (a
single-character mutation of a token). -/
def mutateAt (s : String) (i : Nat) (c : Char) : String :=
  String.mk (s.data.set i c)

/-! ## Capability token codec (src/feedback_api.py:47-54, src/main.py:118-135)

`hmacHex id` stands for `hmac.new(SECRET_KEY, id, sha256).hexdigest()`:
a function of the id once the secret is fixed.  All theorems below hold
for every such function. -/

/-- `generate_feedback_url`'s signature derivation:
`hexdigest[:16]`. -/
def issue_signature (hmacHex : String → String) (idea_id : String) : String :=
  strTake (hmacHex idea_id) 16

/-- A Python `str` all of whose code points are ASCII;
`hmac.compare_digest` accepts `str` arguments only in this case. -/
def isAsciiStr (s : String) : Bool := s.data.all (fun c => c.toNat < 128)

/-- Python's `hmac.compare_digest` on `str` arguments, error path
included: `none` models the `TypeError` it raises when either argument
contains a non-ASCII code point; otherwise `some` of the constant-time
comparison result, functionally equality (false on length
mismatch). -/
def hmac_compare_digest (a b : String) : Option Bool :=
  if isAsciiStr a && isAsciiStr b then some (a == b) else none

/-- The non-raising case of `hmac.compare_digest`: on ASCII strings it
is constant-time equality.  The handler embeddings below use this
`Bool` form; it agrees with the full model `hmac_compare_digest`
whenever the submitted signature is ASCII
(`verify_signature_py_eq_of_ascii`), and the hex expected digest
always is. -/
def compare_digest (a b : String) : Bool := a == b

/-- `verify_signature`: recompute the expected truncated digest and
compare.  This is the comparison outcome for ASCII signatures; for a
non-ASCII signature the real comparison raises (`verify_signature_py`
below), and the enclosing handler answers 500 — the `except Exception`
in the POST handlers, an unhandled error in the GET route — rather
than 403. -/
def verify_signature (hmacHex : String → String) (idea_id signature : String) : Bool :=
  compare_digest (strTake (hmacHex idea_id) 16) signature

/-- `verify_signature` with the comparison's error path explicit:
`none` when `hmac.compare_digest` raises `TypeError`, `some` of the
comparison result otherwise.  The expected digest is hex, hence
always ASCII, so `none` occurs exactly for a non-ASCII submitted
signature. -/
def verify_signature_py (hmacHex : String → String)
    (idea_id signature : String) : Option Bool :=
  hmac_compare_digest (strTake (hmacHex idea_id) 16) signature

/-! ## Rate limiter (src/feedback_api.py:40-76) -/

def RATE_LIMIT_MAX : Nat := 10

def RATE_LIMIT_WINDOW : Int := 3600

/-- `RATE_LIMIT_STORE`: identity (IP string) to list of admitted
timestamps; an identity with no entry maps to `[]`, matching the
`if ip not in STORE: STORE[ip] = []` initialization. -/
def RateStore : Type := String → List Int

def RateStore.empty : RateStore := fun _ => []

def RateStore.update (st : RateStore) (ip : String) (b : List Int) : RateStore :=
  fun k => if k = ip then b else st k

/-- `check_rate_limit(ip)`: prune entries with `now - t >= WINDOW`
(kept iff `now - t < WINDOW`), store the pruned bucket, deny if 10 or
more remain, else record `now` and admit.  Returns the admission flag
and the updated store. -/
def check_rate_limit (now : Int) (ip : String) (store : RateStore) :
    Bool × RateStore :=
  let pruned := (store ip).filter (fun t => now - t < RATE_LIMIT_WINDOW)
  if pruned.length ≥ RATE_LIMIT_MAX then
    (false, store.update ip pruned)
  else
    (true, store.update ip (pruned ++ [now]))

/-- Run a sequence of `check_rate_limit` calls for one identity at the
given times, collecting the admission flags. -/
def run_rate_calls (ip : String) (times : List Int) (store : RateStore) :
    List Bool × RateStore :=
  match times with
  | [] => ([], store)
  | t :: ts =>
    let r := check_rate_limit t ip store
    let rest := run_rate_calls ip ts r.2
    (r.1 :: rest.1, rest.2)

/-- Modelled from the claim's words, for comparison with the code: the
claimed prune keeps exactly the timestamps that are NOT strictly older
than the window (`¬ (now - t > 3600)`). -/
def claim_keep (now t : Int) : Bool := !(now - t > RATE_LIMIT_WINDOW)

/-! ## Data model (src/main.py:97-116, src/feedback_api.py:222-239) -/

/-- One feedback entry as written by `submit_feedback` (its five dict
keys).  In records read back from disk a missing or null `rating` is
modelled as `0`, matching the falsiness test `f.get('rating')`. -/
structure Feedback where
  rating : Nat
  comment : String
  implemented : Bool
  submitted_at : String
  ip_hash : String
deriving DecidableEq, Repr

/-- One idea record of a category partition (`save_challenge`'s
structure).  `feedback_old` models the legacy single-`feedback` field
that `generate_idea` still supports; records written by this code have
`none` there. -/
structure IdeaRecord where
  id : String
  date : String
  challenge : String
  feedbacks : List Feedback
  feedback_old : Option Feedback := none
deriving DecidableEq, Repr

/-- The enumerated categories: the keys of `FILE_MAP`. -/
def FILE_MAP_keys : List String := ["photo", "cooking", "diy"]

/-- The state of one category's backing JSON file. -/
inductive FileState where
  /-- `filepath.exists()` is false. -/
  | missing
  /-- the file exists but `json.load` raises `JSONDecodeError`. -/
  | unparsable
  /-- the file exists, is readable and parses, but opening it for
  writing (`open(..., 'r+')`) raises `PermissionError`. -/
  | unwritable (ideas : List IdeaRecord)
  /-- the file parses to this record list. -/
  | parsed (ideas : List IdeaRecord)
deriving DecidableEq, Repr

/-- Server state shared by the handlers: the rate-limit store and the
per-category file contents. -/
structure ServerState where
  rate : RateStore
  files : String → FileState

def ServerState.setFile (st : ServerState) (cat : String) (fs : FileState) :
    ServerState :=
  { st with files := fun k => if k = cat then fs else st.files k }

/-! ## Rounding (Python `round(x, 1)`, used on the returned average) -/

/-- Python's `round` to an integer: round half to even. -/
def roundHalfEven (q : ℚ) : ℤ :=
  let f := ⌊q⌋
  let frac := q - f
  if frac < 1/2 then f
  else if frac > 1/2 then f + 1
  else if Even f then f else f + 1

/-- Half-to-even rounding of `10 × q` scaled back: rounding an exact
rational to one decimal place. -/
def pyRound1 (q : ℚ) : ℚ := (roundHalfEven (q * 10) : ℚ) / 10

/-- The IEEE-754 binary64 value nearest to a positive rational (round
to nearest, ties to even), as an exact rational: scale into the
53-bit significand range using the binary logarithm, round the
significand half-to-even, scale back.  Python's true division
`sum / count` produces exactly this double.  The averages rounded by
the handler lie in `[1, 5]`, far inside the normal range, so overflow
and subnormals cannot arise; nonpositive input (unreachable here)
maps to 0. -/
def toBinary64 (q : ℚ) : ℚ :=
  if 0 < q then
    (roundHalfEven (q * (2:ℚ) ^ ((52:ℤ) - Int.log 2 q)) : ℚ) *
      (2:ℚ) ^ (Int.log 2 q - (52:ℤ))
  else 0

/-- Python's `round(sum / count, 1)`: the quotient is first the
binary64 double nearest the exact mean, and CPython then rounds that
double to one decimal digit by correctly rounded decimal conversion —
half-to-even on `10 ×` the double's exact value (at this magnitude the
scaled double is never an exact half, so no tie arises there). -/
def pyRoundFloat1 (q : ℚ) : ℚ := pyRound1 (toBinary64 q)

/-! ## The append core of `submit_feedback` (src/feedback_api.py:216-249) -/

/-- The read-modify part of `submit_feedback`'s critical section: walk
the parsed list, append `fb` to the first record whose `id` matches,
and return the new list together with the record's `feedback_count`
and unrounded `average_rating` (`sum of all ratings / count`).
`none` when no record matches (`idea_found` stays false → 404). -/
def appendToIdeas (ideas : List IdeaRecord) (idea_id : String) (fb : Feedback) :
    Option (List IdeaRecord × Nat × ℚ) :=
  match ideas with
  | [] => none
  | r :: rest =>
    if r.id = idea_id then
      let fbs := r.feedbacks ++ [fb]
      some (({ r with feedbacks := fbs } : IdeaRecord) :: rest, fbs.length,
        ((fbs.map (fun f => (f.rating : ℚ))).sum) / (fbs.length : ℚ))
    else
      match appendToIdeas rest idea_id fb with
      | none => none
      | some (l, c, a) => some (r :: l, c, a)

/-! ## Submit handler (src/feedback_api.py:165-267) -/

/-- The parsed JSON body of a submit/import request once the required
`idea_id` and `signature` fields are present.  `rating = none` models
an absent or non-integer rating; `comment` defaults to `""` and
`implemented` to `false` via `data.get`. -/
structure SubmitBody where
  idea_id : String
  signature : String
  rating : Option Int := none
  comment : String := ""
  implemented : Bool := false
deriving DecidableEq, Repr

/-- Outcome of `submit_feedback`, one constructor per return site. -/
inductive SubmitResult where
  /-- 429 from the `rate_limit` decorator. -/
  | rateLimited
  /-- 400: no JSON body or missing `idea_id`/`signature`. -/
  | missingFields
  /-- 403: signature mismatch. -/
  | authError
  /-- 400: category not in `FILE_MAP`. -/
  | badCategory
  /-- 400: rating absent, non-integer, falsy or out of 1..5. -/
  | badRating
  /-- 404: backing file does not exist. -/
  | fileNotFound
  /-- 500: `json.load` failed. -/
  | readError
  /-- 500: `PermissionError` when opening the file for writing. -/
  | permissionError
  /-- 404: no record with this id. -/
  | ideaNotFound
  /-- 200 with `feedback_count` and the rounded `avg_rating`. -/
  | success (feedback_count : Nat) (avg_rating : ℚ)
deriving DecidableEq, Repr

/-- HTTP status of each `submit_feedback` outcome. -/
def SubmitResult.status : SubmitResult → Nat
  | .rateLimited => 429
  | .missingFields => 400
  | .authError => 403
  | .badCategory => 400
  | .badRating => 400
  | .fileNotFound => 404
  | .readError => 500
  | .permissionError => 500
  | .ideaNotFound => 404
  | .success _ _ => 200

/-- The feedback entry `submit_feedback` constructs from an accepted
body: sanitized comment (strip, then first 1000 code points), coerced
`implemented`, ISO timestamp and the truncated MD5 of the client
identity. -/
def newFeedback (md5Hex : String → String) (nowIso ip : String)
    (b : SubmitBody) (r : Int) : Feedback :=
  { rating := r.toNat, comment := strTake (pyStrip b.comment) 1000,
    implemented := b.implemented, submitted_at := nowIso,
    ip_hash := strTake (md5Hex ip) 8 }

/-- `submit_feedback` behind its `@rate_limit` decorator, as a function
of the digest functions, the current time (`now`, with `nowIso` its
`datetime.now().isoformat()` rendering), the resolved client identity,
the request body (`none` = missing body or required fields) and the
server state.  The decorator's admission check runs first and updates
the store even when the handler then fails. -/
def submit_feedback (hmacHex md5Hex : String → String) (now : Int)
    (nowIso ip : String) (req : Option SubmitBody) (st : ServerState) :
    SubmitResult × ServerState :=
  let adm := check_rate_limit now ip st.rate
  let st := { st with rate := adm.2 }
  if !adm.1 then (.rateLimited, st)
  else
    match req with
    | none => (.missingFields, st)
    | some b =>
      if !verify_signature hmacHex b.idea_id b.signature then (.authError, st)
      else
        let category := categoryOf b.idea_id
        if category ∉ FILE_MAP_keys then (.badCategory, st)
        else
          match b.rating with
          | none => (.badRating, st)
          | some r =>
            if !(1 ≤ r && r ≤ 5) then (.badRating, st)
            else
              let fb : Feedback := newFeedback md5Hex nowIso ip b r
              match st.files category with
              | .missing => (.fileNotFound, st)
              | .unwritable _ => (.permissionError, st)
              | .unparsable => (.readError, st)
              | .parsed ideas =>
                match appendToIdeas ideas b.idea_id fb with
                | none => (.ideaNotFound, st)
                | some (ideas2, cnt, avg) =>
                  (.success cnt (pyRoundFloat1 avg),
                   st.setFile category (.parsed ideas2))

/-- A JSON value as rendered in the handlers' responses. -/
inductive JsonVal where
  | s (v : String)
  | n (v : Nat)
  | q (v : ℚ)
deriving DecidableEq, Repr

/-- The JSON object `submit_feedback` returns, key by key as written in
the source (`jsonify({...})` dict literals). -/
def renderSubmitResult : SubmitResult → List (String × JsonVal)
  | .success cnt avg =>
    [("status", .s "success"),
     ("message", .s "Feedback erfolgreich gespeichert!"),
     ("feedback_count", .n cnt),
     ("avg_rating", .q avg)]
  | .rateLimited => [("error", .s "Zu viele Anfragen. Bitte versuche es später noch einmal.")]
  | .missingFields => [("error", .s "Fehlende Pflichtfelder.")]
  | .authError => [("error", .s "Ungültige Anfrage.")]
  | .badCategory => [("error", .s "Ungültige Kategorie.")]
  | .badRating => [("error", .s "Bewertung muss zwischen 1 und 5 liegen.")]
  | .fileNotFound => [("error", .s "Datei nicht gefunden.")]
  | .readError => [("error", .s "Fehler beim Lesen der Datei.")]
  | .permissionError => [("error", .s "Keine Berechtigung zum Schreiben.")]
  | .ideaNotFound => [("error", .s "Idee nicht gefunden.")]

/-! ## Preview handler (src/feedback_api.py:113-162) -/

/-- The first-match record lookup loop (`for idea in ideas: if
idea.get('id') == idea_id: ... break`). -/
def findIdea (ideas : List IdeaRecord) (idea_id : String) : Option IdeaRecord :=
  match ideas with
  | [] => none
  | r :: rest => if r.id = idea_id then some r else findIdea rest idea_id

/-- The preview text: first 150 characters of the challenge, with an
ellipsis when it was longer. -/
def previewOf (challenge : String) : String :=
  if challenge.length > 150 then strTake challenge 150 ++ "..." else challenge

/-- Outcome of `feedback_form`, one constructor per exit. -/
inductive PreviewResult where
  /-- 429 from the `rate_limit` decorator. -/
  | rateLimited
  /-- 403 abort: signature mismatch. -/
  | authError
  /-- 400 abort: category not in `FILE_MAP`. -/
  | badCategory
  /-- 200: the rendered template's inputs. -/
  | render (idea_id signature category : String) (idea_preview : Option String)
      (feedback_count : Nat) (avg_rating : Option ℚ)
deriving DecidableEq, Repr

/-- HTTP status of each `feedback_form` outcome. -/
def PreviewResult.status : PreviewResult → Nat
  | .rateLimited => 429
  | .authError => 403
  | .badCategory => 400
  | .render _ _ _ _ _ _ => 200

/-- The body of the preview's `try` block once the file parsed: look up
the record; when found, render the 150-character preview, the count of
all feedback entries and the mean over the truthy ratings; when absent,
keep the defaults. -/
def previewFromIdeas (idea_id signature category : String)
    (ideas : List IdeaRecord) : PreviewResult :=
  match findIdea ideas idea_id with
  | none => .render idea_id signature category none 0 none
  | some idea =>
    let ratings := (idea.feedbacks.filter (fun f => f.rating != 0)).map
      (fun f => (f.rating : ℚ))
    let avg : Option ℚ :=
      if ratings.length ≠ 0 then some (ratings.sum / (ratings.length : ℚ))
      else none
    .render idea_id signature category (some (previewOf idea.challenge))
      idea.feedbacks.length avg

/-- `feedback_form` behind its `@rate_limit` decorator.  A missing or
unparsable file, and an id absent from the parsed list, all fall
through to the defaults (`idea_preview = None`, `feedback_count = 0`,
`avg_rating = None`); the files are only ever opened for reading, so a
write-permission problem does not affect this handler. -/
def feedback_form (hmacHex : String → String) (now : Int) (ip : String)
    (idea_id signature : String) (st : ServerState) :
    PreviewResult × ServerState :=
  let adm := check_rate_limit now ip st.rate
  let st := { st with rate := adm.2 }
  if !adm.1 then (.rateLimited, st)
  else if !verify_signature hmacHex idea_id signature then (.authError, st)
  else
    let category := categoryOf idea_id
    if category ∉ FILE_MAP_keys then (.badCategory, st)
    else
      match st.files category with
      | .missing => (.render idea_id signature category none 0 none, st)
      | .unparsable => (.render idea_id signature category none 0 none, st)
      | .unwritable ideas => (previewFromIdeas idea_id signature category ideas, st)
      | .parsed ideas => (previewFromIdeas idea_id signature category ideas, st)

/-! ## Import handler (src/feedback_api.py:302-404) -/

/-- Outcome of the external cookbook call (`requests.post`). -/
inductive UpstreamOutcome where
  /-- HTTP 200 with a JSON body carrying `success` and `recipe`. -/
  | ok (success : Bool) (recipe : String)
  /-- non-200 HTTP status. -/
  | httpError
  /-- `requests.Timeout`. -/
  | timeout
  /-- other `requests.RequestException`. -/
  | connectionError
deriving DecidableEq, Repr

/-- Outcome of `import_recipe`, one constructor per return site. -/
inductive ImportResult where
  | rateLimited
  | missingFields
  | authError
  /-- 400: category of the id is not `cooking`. -/
  | notCooking
  | fileNotFound
  | readError
  /-- 404: record absent or its challenge text empty (falsy). -/
  | ideaNotFound
  /-- 500: upstream returned a non-200 status. -/
  | upstreamFailed
  /-- 504: upstream timeout. -/
  | upstreamTimeout
  /-- 503: upstream connection error. -/
  | upstreamConnError
  /-- 500: upstream 200 but `success` false. -/
  | upstreamRejected
  | success (recipe : String)
deriving DecidableEq, Repr

/-- HTTP status of each `import_recipe` outcome. -/
def ImportResult.status : ImportResult → Nat
  | .rateLimited => 429
  | .missingFields => 400
  | .authError => 403
  | .notCooking => 400
  | .fileNotFound => 404
  | .readError => 500
  | .ideaNotFound => 404
  | .upstreamFailed => 500
  | .upstreamTimeout => 504
  | .upstreamConnError => 503
  | .upstreamRejected => 500
  | .success _ => 200

/-- The body of the import once the cooking file parsed: look up the
record (an empty challenge text is falsy, hence also 404), then relay
the upstream outcome. -/
def importFromIdeas (upstream : UpstreamOutcome) (idea_id : String)
    (ideas : List IdeaRecord) : ImportResult :=
  match findIdea ideas idea_id with
  | none => .ideaNotFound
  | some idea =>
    if idea.challenge = "" then .ideaNotFound
    else
      match upstream with
      | .httpError => .upstreamFailed
      | .timeout => .upstreamTimeout
      | .connectionError => .upstreamConnError
      | .ok ok recipe =>
        if !ok then .upstreamRejected
        else .success recipe

/-- `import_recipe` behind its `@rate_limit` decorator; the outcome of
the external cookbook call is a parameter.  The file is only opened for
reading. -/
def import_recipe (hmacHex : String → String) (upstream : UpstreamOutcome)
    (now : Int) (ip : String) (req : Option SubmitBody) (st : ServerState) :
    ImportResult × ServerState :=
  let adm := check_rate_limit now ip st.rate
  let st := { st with rate := adm.2 }
  if !adm.1 then (.rateLimited, st)
  else
    match req with
    | none => (.missingFields, st)
    | some b =>
      if !verify_signature hmacHex b.idea_id b.signature then (.authError, st)
      else if categoryOf b.idea_id ≠ "cooking" then (.notCooking, st)
      else
        match st.files "cooking" with
        | .missing => (.fileNotFound, st)
        | .unparsable => (.readError, st)
        | .unwritable ideas => (importFromIdeas upstream b.idea_id ideas, st)
        | .parsed ideas => (importFromIdeas upstream b.idea_id ideas, st)

/-! ## The three rate-limited endpoints as one dispatcher -/

/-- One inbound request to a rate-limited endpoint. -/
inductive Endpoint where
  | preview (idea_id signature : String)
  | submit (req : Option SubmitBody)
  | importRecipe (req : Option SubmitBody)
deriving DecidableEq, Repr

/-- Dispatch a request and report the HTTP status plus the new state. -/
def handleRequest (hmacHex md5Hex : String → String)
    (upstream : UpstreamOutcome) (now : Int) (nowIso ip : String)
    (e : Endpoint) (st : ServerState) : Nat × ServerState :=
  match e with
  | .preview idea_id signature =>
    let r := feedback_form hmacHex now ip idea_id signature st
    (r.1.status, r.2)
  | .submit req =>
    let r := submit_feedback hmacHex md5Hex now nowIso ip req st
    (r.1.status, r.2)
  | .importRecipe req =>
    let r := import_recipe hmacHex upstream now ip req st
    (r.1.status, r.2)

/-- Run a sequence of timed requests from one identity, collecting the
HTTP statuses. -/
def runRequests (hmacHex md5Hex : String → String)
    (upstream : UpstreamOutcome) (nowIso ip : String)
    (reqs : List (Endpoint × Int)) (st : ServerState) :
    List Nat × ServerState :=
  match reqs with
  | [] => ([], st)
  | (e, t) :: rest =>
    let r := handleRequest hmacHex md5Hex upstream t nowIso ip e st
    let rs := runRequests hmacHex md5Hex upstream nowIso ip rest r.2
    (r.1 :: rs.1, rs.2)

/-! ## Feedback digest builder (src/main.py:152-220) -/

/-- `feedbacks_list`: the new `feedbacks` array when truthy (non-empty),
else the legacy single `feedback` object when it has a truthy rating,
else empty. -/
def feedbacksListOf (r : IdeaRecord) : List Feedback :=
  if r.feedbacks ≠ [] then r.feedbacks
  else
    match r.feedback_old with
    | some f => if f.rating ≠ 0 then [f] else []
    | none => []

/-- `ratings = [f['rating'] for f in feedbacks_list if f.get('rating')]`. -/
def ratedRatings (fs : List Feedback) : List ℚ :=
  (fs.filter (fun f => f.rating != 0)).map (fun f => (f.rating : ℚ))

/-- `implemented_count = sum(1 for f in feedbacks_list if f.get('implemented'))`. -/
def implementedCount (fs : List Feedback) : Nat :=
  (fs.filter (fun f => f.implemented)).length

/-- Arithmetic mean of a rating list. -/
def meanOf (rs : List ℚ) : ℚ := rs.sum / (rs.length : ℚ)

/-- `previous_challenges[-10:]`: the most recent 10 records. -/
def recentOf (l : List IdeaRecord) : List IdeaRecord := l.drop (l.length - 10)

/-- The loop appends a record to `highly_rated` when it has ratings and
their mean is `≥ 4`. -/
def isHighlyRated (r : IdeaRecord) : Bool :=
  let rs := ratedRatings (feedbacksListOf r)
  rs != [] && decide (meanOf rs ≥ 4)

/-- `elif avg_rating <= 2`: poorly rated when rated, not highly rated,
and the mean is `≤ 2`. -/
def isPoorlyRated (r : IdeaRecord) : Bool :=
  let rs := ratedRatings (feedbacksListOf r)
  rs != [] && !(decide (meanOf rs ≥ 4)) && decide (meanOf rs ≤ 2)

/-- Appended to `implemented` when `feedbacks_list` is truthy and the
implemented count is positive. -/
def isAdopted (r : IdeaRecord) : Bool :=
  feedbacksListOf r != [] && decide (0 < implementedCount (feedbacksListOf r))

/-- The structured digest `generate_idea` accumulates before rendering:
the recency list (one dated 100-character preview per recent record)
and the three classified record lists, in loop order.  The source
stores a formatted preview string per classified record; the lists here
keep the records themselves, which determine those strings. -/
structure Digest where
  recency : List String
  highly_rated : List IdeaRecord
  poorly_rated : List IdeaRecord
  implemented : List IdeaRecord
deriving DecidableEq, Repr

/-- Build the digest over a record history: restrict to the recent 10,
then classify each in order. -/
def buildDigest (previous : List IdeaRecord) : Digest :=
  let recent := recentOf previous
  { recency := recent.map (fun ch => ch.date ++ ": " ++ strTake ch.challenge 100)
    highly_rated := recent.filter isHighlyRated
    poorly_rated := recent.filter isPoorlyRated
    implemented := recent.filter isAdopted }

/-- The lists as rendered into `feedback_context`: `highly_rated` and
`poorly_rated` are iterated in full; only `implemented` is sliced to
`[:3]`. -/
structure RenderedDigest where
  highly_rated : List IdeaRecord
  implemented : List IdeaRecord
  poorly_rated : List IdeaRecord
deriving DecidableEq, Repr

/-- Render the digest (src/main.py:207-220). -/
def renderDigest (d : Digest) : RenderedDigest :=
  { highly_rated := d.highly_rated
    implemented := d.implemented.take 3
    poorly_rated := d.poorly_rated }

/-! ## Concurrency model for the submit critical section -/

/-- `feedback_count` of a record id as stored in a partition. -/
def feedbackCountOf (ideas : List IdeaRecord) (idea_id : String) : Nat :=
  match findIdea ideas idea_id with
  | some r => r.feedbacks.length
  | none => 0

/-- Two overlapping executions of `submit_feedback`'s read-modify-write
cycle (lines 216-249), which takes no lock: thread A `json.load`s the
file, thread B `json.load`s the same initial content before A writes,
A `json.dump`s its result, then B `json.dump`s its result over it.
Returns each thread's reported `(feedback_count, average)` and the
final file content, `none` if either id is absent. -/
def concurrentAppendsRun (init : List IdeaRecord) (idA : String)
    (fbA : Feedback) (idB : String) (fbB : Feedback) :
    Option ((Nat × ℚ) × (Nat × ℚ) × List IdeaRecord) :=
  match appendToIdeas init idA fbA, appendToIdeas init idB fbB with
  | some (_, cA, aA), some (fileB, cB, aB) => some ((cA, aA), (cB, aB), fileB)
  | _, _ => none

/-! ## Crash model for the persist step -/

/-- The persist step of `submit_feedback` rewrites the opened file in
place: `f.seek(0)`, serialize the whole list into the file, then
`f.truncate()`.  `persistCrashState old new k` is the file content when
the process dies after `k` characters of the new serialization have
reached the file (for `k = new.length`, the content before `truncate`
runs). -/
def persistCrashState (old new : List Char) (k : Nat) : List Char :=
  new.take k ++ old.drop k

/-- A crash-safe replace (write to a new location, then atomically swap
into place) would leave, at every crash point, either the old or the
new content. -/
def CrashSafeReplace (old new : List Char) : Prop :=
  ∀ k, k ≤ new.length →
    persistCrashState old new k = old ∨ persistCrashState old new k = new

/-! ## Concrete fixtures for witnesses and counterexamples -/

/-- Stand-in digest function for concrete inputs (a fixed 64-hex-char
value; every verified property is uniform in this function). -/
def hmacHex0 : String → String :=
  fun _ => "0123456789abcdef0123456789abcdef0123456789abcdef0123456789abcdef"

/-- Stand-in MD5 hex digest for concrete inputs. -/
def md5Hex0 : String → String := fun _ => "d41d8cd98f00b204e9800998ecf8427e"

/-- The valid signature `hmacHex0` induces for every id. -/
def sig0 : String := "0123456789abcdef"

def ip0 : String := "1.2.3.4"

/-! ## Helper lemmas -/

theorem RateStore.update_same (st : RateStore) (ip : String) (b : List Int) :
    (st.update ip b) ip = b := by
  simp [RateStore.update]

theorem list_getD_set_self (l : List Char) (i : Nat) (c d : Char)
    (h : i < l.length) : (l.set i c).getD i d = c := by
  induction l generalizing i with
  | nil => simp at h
  | cons a t ih =>
    cases i with
    | zero => simp
    | succ n =>
      simp only [List.set, List.getD_cons_succ]
      exact ih n (by simpa using h)

theorem list_all_take (l : List Char) (p : Char → Bool) (n : Nat)
    (h : l.all p = true) : (l.take n).all p = true := by
  rw [List.all_eq_true] at h ⊢
  intro x hx
  exact h x (List.take_subset n l hx)

theorem list_all_set (l : List Char) (p : Char → Bool) (i : Nat) (c : Char)
    (hl : l.all p = true) (hc : p c = true) : (l.set i c).all p = true := by
  rw [List.all_eq_true] at hl ⊢
  intro x hx
  rcases List.mem_or_eq_of_mem_set hx with h | rfl
  · exact hl x h
  · exact hc

theorem mem_set_self (l : List Char) (i : Nat) (c : Char) (h : i < l.length) :
    c ∈ l.set i c := by
  induction l generalizing i with
  | nil => simp at h
  | cons a t ih =>
    cases i with
    | zero => simp
    | succ n =>
      simp only [List.set]
      exact List.mem_cons_of_mem _ (ih n (by simpa using h))

/-! ## C2: token round trip and single-character mutation -/

/-- The full and the ASCII-case comparison agree whenever the
submitted signature is ASCII. -/
theorem verify_signature_py_eq_of_ascii (hmacHex : String → String)
    (idea_id signature : String)
    (hhex : isAsciiStr (hmacHex idea_id) = true)
    (hsig : isAsciiStr signature = true) :
    verify_signature_py hmacHex idea_id signature =
      some (verify_signature hmacHex idea_id signature) := by
  have htake : isAsciiStr (strTake (hmacHex idea_id) 16) = true :=
    list_all_take _ _ _ hhex
  simp [verify_signature_py, hmac_compare_digest, verify_signature,
    compare_digest, htake, hsig]

/-- C2 counterexample: mutating the issued token's first character to
the non-ASCII character `é` does NOT make verify return false: the
real `hmac.compare_digest` raises `TypeError` on a non-ASCII `str`
argument (modelled `none`), which the handlers surface as 500. -/
theorem verify_mutation_non_ascii_cex :
    'é' ≠ (issue_signature hmacHex0 "photo_2025-01-01_ab12cd34").data.getD 0 ' ' ∧
    verify_signature_py hmacHex0 "photo_2025-01-01_ab12cd34"
      (mutateAt (issue_signature hmacHex0 "photo_2025-01-01_ab12cd34") 0 'é') =
      none ∧
    (none : Option Bool) ≠ some false := by
  exact ⟨by decide, by decide, by decide⟩

/-- C2 (amended): for every digest function with an ASCII hexdigest
(as hex digests are) and every id, the issued token
(`hexdigest[:16]`) verifies (`some true`); a single-character mutation
of the issued token to a different ASCII character verifies to
`some false`; a mutation to a non-ASCII character instead makes
`hmac.compare_digest` raise `TypeError` (`none`, surfaced by the
handlers as 500), not return false. -/
theorem verify_issue_roundtrip_and_mutation (hmacHex : String → String)
    (idea_id : String) (i : Nat) (c : Char)
    (hhex : isAsciiStr (hmacHex idea_id) = true)
    (hi : i < (issue_signature hmacHex idea_id).length)
    (hc : c ≠ (issue_signature hmacHex idea_id).data.getD i ' ') :
    verify_signature_py hmacHex idea_id (issue_signature hmacHex idea_id) =
      some true ∧
    (c.toNat < 128 →
      verify_signature_py hmacHex idea_id
        (mutateAt (issue_signature hmacHex idea_id) i c) = some false) ∧
    (¬ c.toNat < 128 →
      verify_signature_py hmacHex idea_id
        (mutateAt (issue_signature hmacHex idea_id) i c) = none) := by
  have hiss : isAsciiStr (issue_signature hmacHex idea_id) = true :=
    list_all_take _ _ _ hhex
  have hne : strTake (hmacHex idea_id) 16 ≠
      mutateAt (issue_signature hmacHex idea_id) i c := by
    intro heq
    have hd : (issue_signature hmacHex idea_id).data =
        (issue_signature hmacHex idea_id).data.set i c :=
      congrArg String.data heq
    have := congrArg (fun l => l.getD i ' ') hd
    simp only at this
    rw [list_getD_set_self _ _ _ _ (by exact hi)] at this
    exact hc this.symm
  refine ⟨?_, ?_, ?_⟩
  · have : isAsciiStr (strTake (hmacHex idea_id) 16) = true := hiss
    simp [verify_signature_py, hmac_compare_digest, issue_signature, this]
  · intro hca
    have hmut : isAsciiStr (mutateAt (issue_signature hmacHex idea_id) i c) =
        true :=
      list_all_set _ _ _ _ hiss (by simpa using hca)
    have htake : isAsciiStr (strTake (hmacHex idea_id) 16) = true := hiss
    simp only [verify_signature_py, hmac_compare_digest, htake, hmut,
      Bool.and_self, if_true, Option.some.injEq]
    exact beq_eq_false_iff_ne.mpr hne
  · intro hca
    have hmem : c ∈ (mutateAt (issue_signature hmacHex idea_id) i c).data :=
      mem_set_self _ _ _ (by exact hi)
    have hmut : isAsciiStr (mutateAt (issue_signature hmacHex idea_id) i c) =
        false := by
      apply Bool.eq_false_iff.mpr
      intro hall
      simp only [isAsciiStr, List.all_eq_true, decide_eq_true_eq] at hall
      exact hca (hall c hmem)
    simp [verify_signature_py, hmac_compare_digest, hmut]

/-- Witness for C2 at a concrete id, position and ASCII replacement
character. -/
theorem verify_issue_roundtrip_and_mutation_witness :
    verify_signature_py hmacHex0 "photo_2025-01-01_ab12cd34"
      (issue_signature hmacHex0 "photo_2025-01-01_ab12cd34") = some true ∧
    verify_signature_py hmacHex0 "photo_2025-01-01_ab12cd34"
      (mutateAt (issue_signature hmacHex0 "photo_2025-01-01_ab12cd34") 0 'z') =
      some false := by
  have h := verify_issue_roundtrip_and_mutation hmacHex0
    "photo_2025-01-01_ab12cd34" 0 'z' (by decide) (by decide) (by decide)
  exact ⟨h.1, h.2.1 (by decide)⟩

/-! ## C5: sliding-window rate limiter -/

/-- C5 counterexample: the code prunes timestamps aged exactly
`WINDOW`, not only those strictly older.  After ten admitted calls at
time 0, the call at time 3600 is admitted by the code, although after
the claim's prune (remove only timestamps strictly older than 3600s)
ten timestamps would remain, so the claim's admission rule (`iff`
remaining count `< 10`) predicts denial. -/
theorem check_rate_limit_prune_boundary_cex :
    (run_rate_calls ip0 [0,0,0,0,0,0,0,0,0,0,3600] RateStore.empty).1 =
      [true,true,true,true,true,true,true,true,true,true,true] ∧
    ¬ (((List.replicate 10 (0 : Int)).filter (claim_keep 3600)).length <
        RATE_LIMIT_MAX) := by
  exact ⟨by decide, by decide⟩

/-- C5 (amended): each call prunes the timestamps at least `WINDOW`
old (keeping exactly those with `now - t < 3600`), admits and records
`now` iff fewer than `MAX = 10` remain, denies without recording
otherwise; the resulting bucket holds at most 10 timestamps younger
than 3600s; and in the concrete 12-call scenario the 11th call within
the hour is denied while the call at 3601s (once the oldest admitted
timestamp is more than 3600s in the past) is admitted again. -/
theorem check_rate_limit_behaviour (now : Int) (ip : String) (store : RateStore)
    (hinv : ((store ip).filter (fun t => now - t < RATE_LIMIT_WINDOW)).length ≤
      RATE_LIMIT_MAX) :
    (((check_rate_limit now ip store).1 = true) ↔
      ((store ip).filter (fun t => now - t < RATE_LIMIT_WINDOW)).length <
        RATE_LIMIT_MAX) ∧
    ((check_rate_limit now ip store).1 = true →
      (check_rate_limit now ip store).2 ip =
        (store ip).filter (fun t => now - t < RATE_LIMIT_WINDOW) ++ [now]) ∧
    ((check_rate_limit now ip store).1 = false →
      (check_rate_limit now ip store).2 ip =
        (store ip).filter (fun t => now - t < RATE_LIMIT_WINDOW)) ∧
    (((check_rate_limit now ip store).2 ip).filter
        (fun t => now - t < RATE_LIMIT_WINDOW)).length ≤ RATE_LIMIT_MAX ∧
    (run_rate_calls ip0 [0,1,2,3,4,5,6,7,8,9,10,3601] RateStore.empty).1 =
      [true,true,true,true,true,true,true,true,true,true,false,true] := by
  have hcon : (run_rate_calls ip0 [0,1,2,3,4,5,6,7,8,9,10,3601] RateStore.empty).1 =
      [true,true,true,true,true,true,true,true,true,true,false,true] := by decide
  have hsing : (List.filter (fun t => decide (now - t < RATE_LIMIT_WINDOW)) [now]) =
      [now] := by
    norm_num [RATE_LIMIT_WINDOW]
  have hidem : ∀ l : List Int,
      ((l.filter (fun t => decide (now - t < RATE_LIMIT_WINDOW))).filter
        (fun t => decide (now - t < RATE_LIMIT_WINDOW))) =
      l.filter (fun t => decide (now - t < RATE_LIMIT_WINDOW)) := by
    intro l
    simp [List.filter_filter]
  by_cases h : ((store ip).filter (fun t => now - t < RATE_LIMIT_WINDOW)).length ≥
      RATE_LIMIT_MAX
  · have hres : check_rate_limit now ip store =
        (false, store.update ip
          ((store ip).filter (fun t => now - t < RATE_LIMIT_WINDOW))) := by
      unfold check_rate_limit
      rw [if_pos h]
    refine ⟨?_, ?_, ?_, ?_, hcon⟩
    · rw [hres]
      constructor
      · intro hh
        exact absurd hh (by simp)
      · intro hlt
        exact ((not_le.mpr hlt) h).elim
    · intro hh
      rw [hres] at hh
      exact absurd hh (by simp)
    · intro _
      rw [hres]
      simp [RateStore.update]
    · rw [hres]
      dsimp only
      rw [RateStore.update_same]
      simpa [hidem] using hinv
  · have hlt := Nat.lt_of_not_le h
    have hres : check_rate_limit now ip store =
        (true, store.update ip
          ((store ip).filter (fun t => now - t < RATE_LIMIT_WINDOW) ++ [now])) := by
      unfold check_rate_limit
      rw [if_neg h]
    refine ⟨?_, ?_, ?_, ?_, hcon⟩
    · rw [hres]
      simpa using hlt
    · intro _
      rw [hres]
      simp [RateStore.update]
    · intro hh
      rw [hres] at hh
      exact absurd hh (by simp)
    · rw [hres]
      dsimp only
      rw [RateStore.update_same]
      rw [List.filter_append, hidem, hsing, List.length_append]
      simpa using Nat.succ_le_of_lt hlt

/-- Witness for C5 at a concrete boundary state. -/
theorem check_rate_limit_behaviour_witness :
    ((check_rate_limit 100 ip0 (RateStore.empty.update ip0 [0, 50])).1 = true ↔
      (([0, 50] : List Int).filter (fun t => 100 - t < RATE_LIMIT_WINDOW)).length <
        RATE_LIMIT_MAX) ∧
    ((check_rate_limit 100 ip0 (RateStore.empty.update ip0 [0, 50])).1 = true →
      (check_rate_limit 100 ip0 (RateStore.empty.update ip0 [0, 50])).2 ip0 =
        (([0, 50] : List Int).filter (fun t => 100 - t < RATE_LIMIT_WINDOW)) ++ [100]) ∧
    ((check_rate_limit 100 ip0 (RateStore.empty.update ip0 [0, 50])).1 = false →
      (check_rate_limit 100 ip0 (RateStore.empty.update ip0 [0, 50])).2 ip0 =
        (([0, 50] : List Int).filter (fun t => 100 - t < RATE_LIMIT_WINDOW))) ∧
    (((check_rate_limit 100 ip0 (RateStore.empty.update ip0 [0, 50])).2 ip0).filter
        (fun t => 100 - t < RATE_LIMIT_WINDOW)).length ≤ RATE_LIMIT_MAX ∧
    (run_rate_calls ip0 [0,1,2,3,4,5,6,7,8,9,10,3601] RateStore.empty).1 =
      [true,true,true,true,true,true,true,true,true,true,false,true] := by
  have h := check_rate_limit_behaviour 100 ip0 (RateStore.empty.update ip0 [0, 50])
    (by decide)
  simpa [RateStore.empty, RateStore.update] using h

/-! ## Helper lemmas on the append core -/

theorem appendToIdeas_eq_none_iff (ideas : List IdeaRecord) (idea_id : String)
    (fb : Feedback) :
    appendToIdeas ideas idea_id fb = none ↔ findIdea ideas idea_id = none := by
  induction ideas with
  | nil => simp [appendToIdeas, findIdea]
  | cons r rest ih =>
    by_cases h : r.id = idea_id
    · simp [appendToIdeas, findIdea, h]
    · cases hap : appendToIdeas rest idea_id fb with
      | none =>
        rw [hap] at ih
        simp [appendToIdeas, findIdea, h, hap, ← ih]
      | some v =>
        obtain ⟨l, c, a⟩ := v
        rw [hap] at ih
        simp only [appendToIdeas, findIdea, if_neg h, hap]
        simp at ih
        simp [ih]

theorem appendToIdeas_of_findIdea (ideas : List IdeaRecord) (idea_id : String)
    (fb : Feedback) (rec0 : IdeaRecord) (h : findIdea ideas idea_id = some rec0) :
    ∃ ideas2, appendToIdeas ideas idea_id fb =
      some (ideas2, rec0.feedbacks.length + 1,
        (((rec0.feedbacks ++ [fb]).map (fun f => (f.rating : ℚ))).sum) /
          (((rec0.feedbacks.length + 1 : Nat) : ℚ))) ∧
      findIdea ideas2 idea_id =
        some { rec0 with feedbacks := rec0.feedbacks ++ [fb] } := by
  induction ideas with
  | nil => simp [findIdea] at h
  | cons r rest ih =>
    by_cases hid : r.id = idea_id
    · rw [findIdea, if_pos hid] at h
      obtain rfl : r = rec0 := by simpa using h
      refine ⟨({ r with feedbacks := r.feedbacks ++ [fb] } : IdeaRecord) :: rest,
        ?_, ?_⟩
      · simp [appendToIdeas, hid]
      · simp [findIdea, hid]
    · rw [findIdea, if_neg hid] at h
      obtain ⟨ideas2, hap, hfind⟩ := ih h
      exact ⟨r :: ideas2, by simp [appendToIdeas, hid, hap],
        by simp [findIdea, hid, hfind]⟩

/-! ## C3: error precedence of the submit pipeline -/

/-- A server state whose identity `ip0` has exhausted its budget at
time 0 (ten admitted timestamps at 0) and whose files are all
missing. -/
def stRL : ServerState :=
  { rate := RateStore.empty.update ip0 (List.replicate 10 0),
    files := fun _ => FileState.missing }

/-- A server state with an untouched rate store and all files
missing. -/
def stOK : ServerState :=
  { rate := RateStore.empty, files := fun _ => FileState.missing }

/-- C3 counterexample: a request that is both malformed (no JSON body)
and over the rate limit is answered `429 RateLimited`, not `400` for
the malformed body: the `@rate_limit` decorator runs before any body
validation. -/
theorem submit_precedence_cex :
    (submit_feedback hmacHex0 md5Hex0 0 "2025-01-01T00:00:00" ip0 none stRL).1 =
      SubmitResult.rateLimited ∧
    SubmitResult.rateLimited ≠ SubmitResult.missingFields := by
  exact ⟨by decide, by decide⟩

/-- C3 (amended): error detection follows the precedence rate limit →
malformed body → token verification → category well-formedness →
rating range → file existence/readability/writability → record lookup
→ store operation; the comment never causes rejection (it is
truncated). -/
theorem submit_feedback_precedence (hm md5 : String → String) (now : Int)
    (nowIso ip : String) (req : Option SubmitBody) (st : ServerState) :
    ((check_rate_limit now ip st.rate).1 = false →
      (submit_feedback hm md5 now nowIso ip req st).1 = .rateLimited) ∧
    ((check_rate_limit now ip st.rate).1 = true → req = none →
      (submit_feedback hm md5 now nowIso ip req st).1 = .missingFields) ∧
    (∀ b, (check_rate_limit now ip st.rate).1 = true → req = some b →
      verify_signature hm b.idea_id b.signature = false →
      (submit_feedback hm md5 now nowIso ip req st).1 = .authError) ∧
    (∀ b, (check_rate_limit now ip st.rate).1 = true → req = some b →
      verify_signature hm b.idea_id b.signature = true →
      categoryOf b.idea_id ∉ FILE_MAP_keys →
      (submit_feedback hm md5 now nowIso ip req st).1 = .badCategory) ∧
    (∀ b, (check_rate_limit now ip st.rate).1 = true → req = some b →
      verify_signature hm b.idea_id b.signature = true →
      categoryOf b.idea_id ∈ FILE_MAP_keys → b.rating = none →
      (submit_feedback hm md5 now nowIso ip req st).1 = .badRating) ∧
    (∀ b r, (check_rate_limit now ip st.rate).1 = true → req = some b →
      verify_signature hm b.idea_id b.signature = true →
      categoryOf b.idea_id ∈ FILE_MAP_keys → b.rating = some r →
      ¬ (1 ≤ r ∧ r ≤ 5) →
      (submit_feedback hm md5 now nowIso ip req st).1 = .badRating) ∧
    (∀ b r, (check_rate_limit now ip st.rate).1 = true → req = some b →
      verify_signature hm b.idea_id b.signature = true →
      categoryOf b.idea_id ∈ FILE_MAP_keys → b.rating = some r → 1 ≤ r → r ≤ 5 →
      st.files (categoryOf b.idea_id) = .missing →
      (submit_feedback hm md5 now nowIso ip req st).1 = .fileNotFound) ∧
    (∀ b r ideas, (check_rate_limit now ip st.rate).1 = true → req = some b →
      verify_signature hm b.idea_id b.signature = true →
      categoryOf b.idea_id ∈ FILE_MAP_keys → b.rating = some r → 1 ≤ r → r ≤ 5 →
      st.files (categoryOf b.idea_id) = .unwritable ideas →
      (submit_feedback hm md5 now nowIso ip req st).1 = .permissionError) ∧
    (∀ b r, (check_rate_limit now ip st.rate).1 = true → req = some b →
      verify_signature hm b.idea_id b.signature = true →
      categoryOf b.idea_id ∈ FILE_MAP_keys → b.rating = some r → 1 ≤ r → r ≤ 5 →
      st.files (categoryOf b.idea_id) = .unparsable →
      (submit_feedback hm md5 now nowIso ip req st).1 = .readError) ∧
    (∀ b r ideas, (check_rate_limit now ip st.rate).1 = true → req = some b →
      verify_signature hm b.idea_id b.signature = true →
      categoryOf b.idea_id ∈ FILE_MAP_keys → b.rating = some r → 1 ≤ r → r ≤ 5 →
      st.files (categoryOf b.idea_id) = .parsed ideas →
      findIdea ideas b.idea_id = none →
      (submit_feedback hm md5 now nowIso ip req st).1 = .ideaNotFound) ∧
    (∀ (b : SubmitBody) (r : Int) (ideas : List IdeaRecord) (rec0 : IdeaRecord),
      (check_rate_limit now ip st.rate).1 = true → req = some b →
      verify_signature hm b.idea_id b.signature = true →
      categoryOf b.idea_id ∈ FILE_MAP_keys → b.rating = some r → 1 ≤ r → r ≤ 5 →
      st.files (categoryOf b.idea_id) = .parsed ideas →
      findIdea ideas b.idea_id = some rec0 →
      (submit_feedback hm md5 now nowIso ip req st).1 =
        .success (rec0.feedbacks.length + 1)
          (pyRoundFloat1 ((((rec0.feedbacks ++ [newFeedback md5 nowIso ip b r]).map
              (fun f => (f.rating : ℚ))).sum) /
            (((rec0.feedbacks.length + 1 : Nat) : ℚ))))) := by
  refine ⟨?_, ?_, ?_, ?_, ?_, ?_, ?_, ?_, ?_, ?_, ?_⟩
  · intro hadm
    simp [submit_feedback, hadm]
  · intro hadm hreq
    subst hreq
    simp [submit_feedback, hadm]
  · intro b hadm hreq hsig
    subst hreq
    simp [submit_feedback, hadm, hsig]
  · intro b hadm hreq hsig hcat
    subst hreq
    simp [submit_feedback, hadm, hsig, hcat]
  · intro b hadm hreq hsig hcat hr
    subst hreq
    simp [submit_feedback, hadm, hsig, hcat, hr]
  · intro b r hadm hreq hsig hcat hr hbad
    subst hreq
    have hcond : (decide (1 ≤ r) && decide (r ≤ 5)) = false := by
      simp only [Bool.and_eq_false_iff, decide_eq_false_iff_not]
      omega
    simp [submit_feedback, hadm, hsig, hcat, hr, hcond]
  · intro b r hadm hreq hsig hcat hr h1 h5 hfile
    subst hreq
    simp [submit_feedback, hadm, hsig, hcat, hr, h1, h5, hfile]
  · intro b r ideas hadm hreq hsig hcat hr h1 h5 hfile
    subst hreq
    simp [submit_feedback, hadm, hsig, hcat, hr, h1, h5, hfile]
  · intro b r hadm hreq hsig hcat hr h1 h5 hfile
    subst hreq
    simp [submit_feedback, hadm, hsig, hcat, hr, h1, h5, hfile]
  · intro b r ideas hadm hreq hsig hcat hr h1 h5 hfile hfind
    subst hreq
    rw [← appendToIdeas_eq_none_iff ideas b.idea_id
      (newFeedback md5 nowIso ip b r)] at hfind
    simp [submit_feedback, hadm, hsig, hcat, hr, h1, h5, hfile, hfind]
  · intro b r ideas rec0 hadm hreq hsig hcat hr h1 h5 hfile hfind
    subst hreq
    obtain ⟨ideas2, hap, -⟩ := appendToIdeas_of_findIdea ideas b.idea_id
      (newFeedback md5 nowIso ip b r) rec0 hfind
    simp [submit_feedback, hadm, hsig, hcat, hr, h1, h5, hfile, hap]

/-- Witness for C3: the over-limit state yields 429 even for a missing
body; with budget available the same missing body yields 400. -/
theorem submit_feedback_precedence_witness :
    (submit_feedback hmacHex0 md5Hex0 0 "2025-01-01T00:00:00" ip0 none stRL).1 =
      SubmitResult.rateLimited ∧
    (submit_feedback hmacHex0 md5Hex0 0 "2025-01-01T00:00:00" ip0 none stOK).1 =
      SubmitResult.missingFields :=
  ⟨(submit_feedback_precedence hmacHex0 md5Hex0 0 "2025-01-01T00:00:00" ip0 none
      stRL).1 (by decide),
   (submit_feedback_precedence hmacHex0 md5Hex0 0 "2025-01-01T00:00:00" ip0 none
      stOK).2.1 (by decide) rfl⟩

/-! ## Success-path characterization of the submit handler -/

theorem submit_feedback_success (hm md5 : String → String) (now : Int)
    (nowIso ip : String) (b : SubmitBody) (st : ServerState) (r : Int)
    (ideas : List IdeaRecord) (rec0 : IdeaRecord)
    (hadm : (check_rate_limit now ip st.rate).1 = true)
    (hsig : verify_signature hm b.idea_id b.signature = true)
    (hcat : categoryOf b.idea_id ∈ FILE_MAP_keys)
    (hr : b.rating = some r) (h1 : 1 ≤ r) (h5 : r ≤ 5)
    (hfile : st.files (categoryOf b.idea_id) = .parsed ideas)
    (hfind : findIdea ideas b.idea_id = some rec0) :
    ∃ ideas2,
      (submit_feedback hm md5 now nowIso ip (some b) st).1 =
        .success (rec0.feedbacks.length + 1)
          (pyRoundFloat1 ((((rec0.feedbacks ++ [newFeedback md5 nowIso ip b r]).map
              (fun f => (f.rating : ℚ))).sum) /
            (((rec0.feedbacks.length + 1 : Nat) : ℚ)))) ∧
      (submit_feedback hm md5 now nowIso ip (some b) st).2.rate =
        (check_rate_limit now ip st.rate).2 ∧
      (submit_feedback hm md5 now nowIso ip (some b) st).2.files
          (categoryOf b.idea_id) = .parsed ideas2 ∧
      (∀ k, k ≠ categoryOf b.idea_id →
        (submit_feedback hm md5 now nowIso ip (some b) st).2.files k =
          st.files k) ∧
      findIdea ideas2 b.idea_id =
        some { rec0 with feedbacks :=
          rec0.feedbacks ++ [newFeedback md5 nowIso ip b r] } := by
  obtain ⟨ideas2, hap, hfind2⟩ := appendToIdeas_of_findIdea ideas b.idea_id
    (newFeedback md5 nowIso ip b r) rec0 hfind
  refine ⟨ideas2, ?_, ?_, ?_, ?_, hfind2⟩
  · simp [submit_feedback, hadm, hsig, hcat, hr, h1, h5, hfile, hap]
  · simp [submit_feedback, hadm, hsig, hcat, hr, h1, h5, hfile, hap,
      ServerState.setFile]
  · simp [submit_feedback, hadm, hsig, hcat, hr, h1, h5, hfile, hap,
      ServerState.setFile]
  · intro k hk
    simp [submit_feedback, hadm, hsig, hcat, hr, h1, h5, hfile, hap,
      ServerState.setFile, hk]

/-! ## Concrete rounding facts -/

theorem pyRound1_low (q : ℚ) (z : ℤ) (hz : ⌊q * 10⌋ = z)
    (hlt : q * 10 - z < 1/2) : pyRound1 q = (z : ℚ) / 10 := by
  simp only [pyRound1, roundHalfEven, hz]
  rw [if_pos hlt]

theorem floor_70_3 : ⌊(7/3 : ℚ) * 10⌋ = 23 := by
  rw [Int.floor_eq_iff]
  norm_num

theorem floor_50 : ⌊(5 : ℚ) * 10⌋ = 50 := by
  rw [Int.floor_eq_iff]
  norm_num

theorem floor_30 : ⌊(3 : ℚ) * 10⌋ = 30 := by
  rw [Int.floor_eq_iff]
  norm_num

theorem pyRound1_7_3 : pyRound1 (7/3) = 23/10 := by
  have h := pyRound1_low (7/3) 23 floor_70_3 (by norm_num)
  simpa using h

theorem pyRound1_5 : pyRound1 5 = 5 := by
  have h := pyRound1_low 5 50 floor_50 (by norm_num)
  rw [h]
  norm_num

theorem pyRound1_3 : pyRound1 3 = 3 := by
  have h := pyRound1_low 3 30 floor_30 (by norm_num)
  rw [h]
  norm_num

theorem roundHalfEven_low (q : ℚ) (z : ℤ) (hz : ⌊q⌋ = z) (hlt : q - z < 1/2) :
    roundHalfEven q = z := by
  simp only [roundHalfEven, hz]
  rw [if_pos hlt]

theorem roundHalfEven_high (q : ℚ) (z : ℤ) (hz : ⌊q⌋ = z) (hgt : 1/2 < q - z) :
    roundHalfEven q = z + 1 := by
  simp only [roundHalfEven, hz]
  rw [if_neg (by linarith), if_pos hgt]

theorem roundHalfEven_tie_odd (q : ℚ) (z : ℤ) (hz : ⌊q⌋ = z)
    (heq : q - z = 1/2) (hodd : ¬ Even z) : roundHalfEven q = z + 1 := by
  simp only [roundHalfEven, hz, heq]
  rw [if_neg (by norm_num), if_neg (by norm_num), if_neg hodd]

theorem roundHalfEven_int (n : ℤ) : roundHalfEven (n : ℚ) = n := by
  simp [roundHalfEven, Int.floor_intCast]

theorem int_log_two_eq (q : ℚ) (e : ℤ) (hq : 0 < q)
    (h1 : (2:ℚ) ^ e ≤ q) (h2 : q < (2:ℚ) ^ (e + 1)) : Int.log 2 q = e := by
  have hb : (1:ℕ) < 2 := by norm_num
  have hcast : ((2:ℕ) : ℚ) = (2:ℚ) := by norm_num
  have hle : e ≤ Int.log 2 q := by
    rw [← Int.zpow_le_iff_le_log hb hq, hcast]
    exact h1
  have hlt : Int.log 2 q < e + 1 := by
    rw [← Int.lt_zpow_iff_log_lt hb hq, hcast]
    exact h2
  omega

theorem toBinary64_eq (q : ℚ) (e m : ℤ) (hq : 0 < q)
    (hlog : Int.log 2 q = e)
    (hm : roundHalfEven (q * (2:ℚ) ^ ((52:ℤ) - e)) = m) :
    toBinary64 q = (m : ℚ) * (2:ℚ) ^ (e - (52:ℤ)) := by
  simp only [toBinary64, if_pos hq, hlog, hm]

theorem toBinary64_5 : toBinary64 5 = 5 := by
  have h := toBinary64_eq 5 2 5629499534213120 (by norm_num)
    (int_log_two_eq 5 2 (by norm_num) (by norm_num) (by norm_num))
    (by
      rw [show (5:ℚ) * (2:ℚ) ^ ((52:ℤ) - (2:ℤ)) = ((5629499534213120:ℤ):ℚ)
        from by norm_num]
      exact roundHalfEven_int _)
  rw [h]
  norm_num [zpow_sub₀]

theorem toBinary64_3 : toBinary64 3 = 3 := by
  have h := toBinary64_eq 3 1 6755399441055744 (by norm_num)
    (int_log_two_eq 3 1 (by norm_num) (by norm_num) (by norm_num))
    (by
      rw [show (3:ℚ) * (2:ℚ) ^ ((52:ℤ) - (1:ℤ)) = ((6755399441055744:ℤ):ℚ)
        from by norm_num]
      exact roundHalfEven_int _)
  rw [h]
  norm_num [zpow_sub₀]

/-- The binary64 double nearest 7/3 (the rounded-up 53-bit
significand). -/
theorem toBinary64_7_3 : toBinary64 (7/3) = 5254199565265579 / 2 ^ 51 := by
  have h := toBinary64_eq (7/3) 1 5254199565265579 (by norm_num)
    (int_log_two_eq (7/3) 1 (by norm_num) (by norm_num) (by norm_num))
    (by
      have hh := roundHalfEven_high (((7:ℚ)/3) * (2:ℚ) ^ ((52:ℤ) - (1:ℤ)))
        5254199565265578 (by rw [Int.floor_eq_iff]; norm_num) (by norm_num)
      simpa using hh)
  rw [h]
  norm_num [zpow_sub₀]

/-- The binary64 double nearest 43/20 = 2.15 lies just below it. -/
theorem toBinary64_43_20 : toBinary64 (43/20) = 4841369599423283 / 2 ^ 51 := by
  have h := toBinary64_eq (43/20) 1 4841369599423283 (by norm_num)
    (int_log_two_eq (43/20) 1 (by norm_num) (by norm_num) (by norm_num))
    (roundHalfEven_low _ _ (by rw [Int.floor_eq_iff]; norm_num) (by norm_num))
  rw [h]
  norm_num [zpow_sub₀]

theorem pyRoundFloat1_5 : pyRoundFloat1 5 = 5 := by
  rw [pyRoundFloat1, toBinary64_5]
  exact pyRound1_5

theorem pyRoundFloat1_3 : pyRoundFloat1 3 = 3 := by
  rw [pyRoundFloat1, toBinary64_3]
  exact pyRound1_3

theorem pyRoundFloat1_7_3 : pyRoundFloat1 (7/3) = 23/10 := by
  rw [pyRoundFloat1, toBinary64_7_3]
  have h := pyRound1_low ((5254199565265579:ℚ) / 2 ^ 51) 23
    (by rw [Int.floor_eq_iff]; norm_num) (by norm_num)
  rw [h]
  norm_num

/-- Python's `round(2.15, 1)` is 2.1: the double below 2.15 rounds
down. -/
theorem pyRoundFloat1_43_20 : pyRoundFloat1 (43/20) = 21/10 := by
  rw [pyRoundFloat1, toBinary64_43_20]
  have h := pyRound1_low ((4841369599423283:ℚ) / 2 ^ 51) 21
    (by rw [Int.floor_eq_iff]; norm_num) (by norm_num)
  rw [h]
  norm_num

/-- Half-to-even rounding of the exact mean 43/20 would give 2.2
instead. -/
theorem pyRound1_43_20 : pyRound1 (43/20) = 22/10 := by
  have h := roundHalfEven_tie_odd ((43:ℚ)/20 * 10) 21
    (by rw [Int.floor_eq_iff]; norm_num) (by norm_num) (by decide)
  simp only [pyRound1, h]
  norm_num

/-! ## Concrete fixtures for the submit scenarios -/

def idC : String := "cooking_2025-01-01_ab12cd34"

def fb5 : Feedback :=
  { rating := 5, comment := "Great!", implemented := true,
    submitted_at := "2025-01-01T08:00:00", ip_hash := "d41d8cd9" }

def fb1 : Feedback :=
  { rating := 1, comment := "", implemented := false,
    submitted_at := "2025-01-02T08:00:00", ip_hash := "d41d8cd9" }

/-- A cooking record that already carries ratings 5 and 1. -/
def rec56 : IdeaRecord :=
  { id := idC, date := "2025-01-01",
    challenge := "Cremige Kuerbissuppe mit Ingwer", feedbacks := [fb5, fb1] }

/-- A cooking record with no feedback yet. -/
def recFresh : IdeaRecord :=
  { id := idC, date := "2025-01-01",
    challenge := "Cremige Kuerbissuppe mit Ingwer", feedbacks := [] }

def bodyR (r : Int) : SubmitBody :=
  { idea_id := idC, signature := sig0, rating := some r,
    comment := "Great!", implemented := true }

def stC6 : ServerState :=
  { rate := RateStore.empty,
    files := fun k => if k = "cooking" then FileState.parsed [rec56]
      else FileState.missing }

def stScen : ServerState :=
  { rate := RateStore.empty,
    files := fun k => if k = "cooking" then FileState.parsed [recFresh]
      else FileState.missing }

/-- A first submission with rating 5 against a fresh record reports
count 1 and average 5; a second with rating 1 reports count 2 and
average 3. -/
theorem scenario_two_submissions :
    (submit_feedback hmacHex0 md5Hex0 0 "2025-01-01T08:00:00" ip0
      (some (bodyR 5)) stScen).1 = SubmitResult.success 1 5 ∧
    (submit_feedback hmacHex0 md5Hex0 1 "2025-01-01T09:00:00" ip0
      (some (bodyR 1))
      (submit_feedback hmacHex0 md5Hex0 0 "2025-01-01T08:00:00" ip0
        (some (bodyR 5)) stScen).2).1 = SubmitResult.success 2 3 := by
  obtain ⟨ideas2, hres1, hrate1, hfileAt1, -, hfind1⟩ :=
    submit_feedback_success hmacHex0 md5Hex0 0 "2025-01-01T08:00:00" ip0
      (bodyR 5) stScen 5 [recFresh] recFresh (by decide) (by decide) (by decide)
      rfl (by norm_num) (by norm_num) (by decide) (by decide)
  have hstep1 : (submit_feedback hmacHex0 md5Hex0 0 "2025-01-01T08:00:00" ip0
      (some (bodyR 5)) stScen).1 = SubmitResult.success 1 5 := by
    rw [hres1]
    simp [recFresh, newFeedback, bodyR, Int.toNat_ofNat, pyRoundFloat1_5]
  refine ⟨hstep1, ?_⟩
  have hadm2 : (check_rate_limit 1 ip0
      ((submit_feedback hmacHex0 md5Hex0 0 "2025-01-01T08:00:00" ip0
        (some (bodyR 5)) stScen).2).rate).1 = true := by
    rw [hrate1]
    decide
  obtain ⟨ideas3, hres2, -, -, -, -⟩ :=
    submit_feedback_success hmacHex0 md5Hex0 1 "2025-01-01T09:00:00" ip0
      (bodyR 1)
      (submit_feedback hmacHex0 md5Hex0 0 "2025-01-01T08:00:00" ip0
        (some (bodyR 5)) stScen).2
      1 ideas2
      ({ recFresh with feedbacks :=
        recFresh.feedbacks ++ [newFeedback md5Hex0 "2025-01-01T08:00:00" ip0
          (bodyR 5) 5] } : IdeaRecord)
      hadm2 (by decide) (by decide) rfl (by norm_num) (by norm_num)
      hfileAt1 hfind1
  rw [hres2]
  simp [recFresh, newFeedback, bodyR, Int.toNat_ofNat]
  norm_num [pyRoundFloat1_3]

/-! ## C6: success response shape and values -/

/-- C6 counterexample: at a record already rated 5 and 1, a further
rating 1 yields `avg_rating = 2.3` (`round(7/3, 1)` applied to the
binary64 quotient), not the arithmetic mean, and the success body's
keys are `status`, `message`, `feedback_count`, `avg_rating` — there
is no `average_rating` key. -/
theorem submit_response_shape_cex :
    (submit_feedback hmacHex0 md5Hex0 0 "2025-01-03T00:00:00" ip0
      (some (bodyR 1)) stC6).1 = SubmitResult.success 3 (23/10) ∧
    (23/10 : ℚ) ≠ 7/3 ∧
    ((renderSubmitResult (SubmitResult.success 3 (23/10))).map Prod.fst) =
      ["status", "message", "feedback_count", "avg_rating"] ∧
    "average_rating" ∉
      ((renderSubmitResult (SubmitResult.success 3 (23/10))).map Prod.fst) := by
  obtain ⟨ideas2, hres, -, -, -, -⟩ :=
    submit_feedback_success hmacHex0 md5Hex0 0 "2025-01-03T00:00:00" ip0
      (bodyR 1) stC6 1 [rec56] rec56 (by decide) (by decide) (by decide)
      rfl (by norm_num) (by norm_num) (by decide) (by decide)
  refine ⟨?_, by norm_num, by decide, by decide⟩
  rw [hres]
  simp [rec56, fb5, fb1, newFeedback, bodyR, Int.toNat_ofNat]
  norm_num [pyRoundFloat1_7_3]

/-- C6 (amended): an accepted submission's body has keys `status`,
`message`, `feedback_count` and `avg_rating`, where `feedback_count`
is the number of entries on the record after the append and
`avg_rating` is `round(sum/count, 1)` computed the way Python does:
the exact mean is first taken to the nearest binary64 double and that
double is rounded to one decimal (so at the reachable mean 2.15 the
program answers 2.1, where half-to-even rounding of the exact mean
would give 2.2); the first-5-then-1 scenario yields counts 1 and 2
with averages 5.0 and 3.0 exactly, those means being binary64-exact
fixed points of the rounding. -/
theorem submit_success_response (hm md5 : String → String) (now : Int)
    (nowIso ip : String) (b : SubmitBody) (st : ServerState) (r : Int)
    (ideas : List IdeaRecord) (rec0 : IdeaRecord)
    (hadm : (check_rate_limit now ip st.rate).1 = true)
    (hsig : verify_signature hm b.idea_id b.signature = true)
    (hcat : categoryOf b.idea_id ∈ FILE_MAP_keys)
    (hr : b.rating = some r) (h1 : 1 ≤ r) (h5 : r ≤ 5)
    (hfile : st.files (categoryOf b.idea_id) = .parsed ideas)
    (hfind : findIdea ideas b.idea_id = some rec0) :
    ((renderSubmitResult
        (submit_feedback hm md5 now nowIso ip (some b) st).1).map Prod.fst) =
      ["status", "message", "feedback_count", "avg_rating"] ∧
    (submit_feedback hm md5 now nowIso ip (some b) st).1 =
      .success (rec0.feedbacks.length + 1)
        (pyRoundFloat1 ((((rec0.feedbacks ++ [newFeedback md5 nowIso ip b r]).map
            (fun f => (f.rating : ℚ))).sum) /
          (((rec0.feedbacks.length + 1 : Nat) : ℚ)))) ∧
    (submit_feedback hmacHex0 md5Hex0 0 "2025-01-01T08:00:00" ip0
      (some (bodyR 5)) stScen).1 = SubmitResult.success 1 5 ∧
    (submit_feedback hmacHex0 md5Hex0 1 "2025-01-01T09:00:00" ip0
      (some (bodyR 1))
      (submit_feedback hmacHex0 md5Hex0 0 "2025-01-01T08:00:00" ip0
        (some (bodyR 5)) stScen).2).1 = SubmitResult.success 2 3 ∧
    pyRoundFloat1 (43/20) = 21/10 ∧
    pyRoundFloat1 (43/20) ≠ pyRound1 (43/20) := by
  obtain ⟨ideas2, hres, -, -, -, -⟩ :=
    submit_feedback_success hm md5 now nowIso ip b st r ideas rec0
      hadm hsig hcat hr h1 h5 hfile hfind
  refine ⟨by rw [hres]; rfl, hres, scenario_two_submissions.1,
    scenario_two_submissions.2, pyRoundFloat1_43_20, ?_⟩
  rw [pyRoundFloat1_43_20, pyRound1_43_20]
  norm_num

/-- Witness for C6 at the concrete rated-5-and-1 record. -/
theorem submit_success_response_witness :
    ((renderSubmitResult
        (submit_feedback hmacHex0 md5Hex0 0 "2025-01-03T00:00:00" ip0
          (some (bodyR 1)) stC6).1).map Prod.fst) =
      ["status", "message", "feedback_count", "avg_rating"] :=
  (submit_success_response hmacHex0 md5Hex0 0 "2025-01-03T00:00:00" ip0
    (bodyR 1) stC6 1 [rec56] rec56 (by decide) (by decide) (by decide)
    rfl (by norm_num) (by norm_num) (by decide) (by decide)).1

/-! ## C7: comment trimming and truncation -/

/-- C7: an otherwise valid submission is accepted for every comment
string: the stored comment is the first 1000 code points of the
trimmed comment, and its length never exceeds 1000. -/
theorem comment_truncated_not_rejected (hm md5 : String → String) (now : Int)
    (nowIso ip : String) (b : SubmitBody) (st : ServerState) (r : Int)
    (ideas : List IdeaRecord) (rec0 : IdeaRecord)
    (hadm : (check_rate_limit now ip st.rate).1 = true)
    (hsig : verify_signature hm b.idea_id b.signature = true)
    (hcat : categoryOf b.idea_id ∈ FILE_MAP_keys)
    (hr : b.rating = some r) (h1 : 1 ≤ r) (h5 : r ≤ 5)
    (hfile : st.files (categoryOf b.idea_id) = .parsed ideas)
    (hfind : findIdea ideas b.idea_id = some rec0) :
    ((submit_feedback hm md5 now nowIso ip (some b) st).1).status = 200 ∧
    (∃ ideas2 rec2,
      (submit_feedback hm md5 now nowIso ip (some b) st).2.files
        (categoryOf b.idea_id) = .parsed ideas2 ∧
      findIdea ideas2 b.idea_id = some rec2 ∧
      rec2.feedbacks.map Feedback.comment =
        rec0.feedbacks.map Feedback.comment ++
          [strTake (pyStrip b.comment) 1000]) ∧
    (strTake (pyStrip b.comment) 1000).length ≤ 1000 := by
  obtain ⟨ideas2, hres, -, hfileAt, -, hfind2⟩ :=
    submit_feedback_success hm md5 now nowIso ip b st r ideas rec0
      hadm hsig hcat hr h1 h5 hfile hfind
  refine ⟨by rw [hres]; rfl, ⟨ideas2,
    { rec0 with feedbacks := rec0.feedbacks ++ [newFeedback md5 nowIso ip b r] },
    hfileAt, hfind2, ?_⟩, ?_⟩
  · simp [newFeedback]
  · simp only [strTake, String.length, List.length_take]
    omega

/-- The 1200-character comment used in the C7 witness. -/
def bodyLong : SubmitBody :=
  { idea_id := idC, signature := sig0, rating := some 4,
    comment := String.mk (List.replicate 1200 'a'), implemented := false }

set_option maxRecDepth 100000 in
/-- Witness for C7: a comment of 1200 characters is accepted and the
stored comment has exactly 1000 characters. -/
theorem comment_truncated_witness :
    ((submit_feedback hmacHex0 md5Hex0 0 "2025-01-01T08:00:00" ip0
      (some bodyLong) stScen).1).status = 200 ∧
    (strTake (pyStrip bodyLong.comment) 1000).length ≤ 1000 ∧
    (strTake (pyStrip bodyLong.comment) 1000).length = 1000 := by
  have h := comment_truncated_not_rejected hmacHex0 md5Hex0 0
    "2025-01-01T08:00:00" ip0 bodyLong stScen 4 [recFresh] recFresh
    (by decide) (by decide) (by decide) rfl (by norm_num) (by norm_num)
    (by decide) (by decide)
  exact ⟨h.1, h.2.2, by decide⟩

/-! ## C8: feedback digest classification and render caps -/

/-- A record with one rating-5 feedback, used to overfill the
highly-rated list. -/
def rHigh (s : String) : IdeaRecord :=
  { id := s, date := "2025-01-01", challenge := "Goldene Stunde", feedbacks := [fb5] }

/-- Four recent records that all classify as highly rated. -/
def hist4 : List IdeaRecord :=
  [rHigh "photo_a", rHigh "photo_b", rHigh "photo_c", rHigh "photo_d"]

theorem isHighlyRated_rHigh (s : String) : isHighlyRated (rHigh s) = true := by
  simp [isHighlyRated, rHigh, ratedRatings, feedbacksListOf, meanOf, fb5]
  norm_num

/-- C8 counterexample: with four highly-rated records among the recent
ten, the rendered highly-rated list holds four items — only the
`implemented` list is sliced to `[:3]` in the source, the highly- and
poorly-rated lists are rendered in full. -/
theorem digest_render_cap_cex :
    (renderDigest (buildDigest hist4)).highly_rated.length = 4 ∧
    ¬ ((renderDigest (buildDigest hist4)).highly_rated.length ≤ 3) := by
  have h4 : (renderDigest (buildDigest hist4)).highly_rated.length = 4 := by
    simp [renderDigest, buildDigest, recentOf, hist4, List.filter,
      isHighlyRated_rHigh]
  exact ⟨h4, by rw [h4]; norm_num⟩

theorem implementedCount_pos_ne_nil (fs : List Feedback)
    (h : 0 < implementedCount fs) : fs ≠ [] := by
  intro hfs
  subst hfs
  simp [implementedCount] at h

/-- C8 (amended): over the most recent 10 records, a record with at
least one truthy-rated entry is in the highly-rated list iff its mean
is `≥ 4` and in the poorly-rated list iff its mean is `≤ 2`; it is in
the adopted list iff its implemented count is positive; when rendered,
only the adopted list is capped at 3, while each classified list is
bounded only by the recency window of 10; the digest is a function of
the input sequence alone. -/
theorem digest_classification (previous : List IdeaRecord) (r : IdeaRecord) :
    (r ∈ (buildDigest previous).highly_rated ↔
      r ∈ recentOf previous ∧ ratedRatings (feedbacksListOf r) ≠ [] ∧
        4 ≤ meanOf (ratedRatings (feedbacksListOf r))) ∧
    (r ∈ (buildDigest previous).poorly_rated ↔
      r ∈ recentOf previous ∧ ratedRatings (feedbacksListOf r) ≠ [] ∧
        meanOf (ratedRatings (feedbacksListOf r)) ≤ 2) ∧
    (r ∈ (buildDigest previous).implemented ↔
      r ∈ recentOf previous ∧ 0 < implementedCount (feedbacksListOf r)) ∧
    (renderDigest (buildDigest previous)).implemented.length ≤ 3 ∧
    (recentOf previous).length ≤ 10 ∧
    (buildDigest previous).highly_rated.length ≤ 10 ∧
    (buildDigest previous).poorly_rated.length ≤ 10 := by
  have hrec : (recentOf previous).length ≤ 10 := by
    simp only [recentOf, List.length_drop]
    omega
  refine ⟨?_, ?_, ?_, ?_, hrec, ?_, ?_⟩
  · simp [buildDigest, List.mem_filter, isHighlyRated, and_assoc]
  · simp only [buildDigest, List.mem_filter, isPoorlyRated, Bool.and_eq_true,
      bne_iff_ne, ne_eq, Bool.not_eq_true', decide_eq_false_iff_not,
      decide_eq_true_eq, ge_iff_le]
    constructor
    · rintro ⟨hmem, ⟨hne, -⟩, hle⟩
      exact ⟨hmem, hne, hle⟩
    · rintro ⟨hmem, hne, hle⟩
      exact ⟨hmem, ⟨hne, by intro hge; linarith⟩, hle⟩
  · simp only [buildDigest, List.mem_filter, isAdopted, Bool.and_eq_true,
      bne_iff_ne, ne_eq, decide_eq_true_eq]
    constructor
    · rintro ⟨hmem, -, hpos⟩
      exact ⟨hmem, hpos⟩
    · rintro ⟨hmem, hpos⟩
      exact ⟨hmem, implementedCount_pos_ne_nil _ hpos, hpos⟩
  · simp only [renderDigest, List.length_take]
    omega
  · exact le_trans (List.length_filter_le _ _) hrec
  · exact le_trans (List.length_filter_le _ _) hrec

/-! ## C9: one shared rate-limit budget across the three endpoints -/

theorem submit_status_429_iff (res : SubmitResult) :
    res.status = 429 ↔ res = .rateLimited := by
  cases res <;> simp [SubmitResult.status]

theorem preview_status_429_iff (res : PreviewResult) :
    res.status = 429 ↔ res = .rateLimited := by
  cases res <;> simp [PreviewResult.status]

theorem import_status_429_iff (res : ImportResult) :
    res.status = 429 ↔ res = .rateLimited := by
  cases res <;> simp [ImportResult.status]

theorem submit_feedback_rate (hm md5 : String → String) (now : Int)
    (nowIso ip : String) (req : Option SubmitBody) (st : ServerState) :
    (submit_feedback hm md5 now nowIso ip req st).2.rate =
      (check_rate_limit now ip st.rate).2 ∧
    ((submit_feedback hm md5 now nowIso ip req st).1 = .rateLimited ↔
      (check_rate_limit now ip st.rate).1 = false) := by
  cases hadm : (check_rate_limit now ip st.rate).1
  · constructor <;> simp [submit_feedback, hadm]
  · rcases req with - | b
    · constructor <;> simp [submit_feedback, hadm]
    · constructor
      · simp only [submit_feedback, hadm, Bool.not_true, Bool.false_eq_true,
          if_false]
        repeat' split
        all_goals simp [ServerState.setFile]
      · simp only [hadm, Bool.true_eq_false, iff_false]
        intro hcontra
        simp only [submit_feedback, hadm, Bool.not_true, Bool.false_eq_true,
          if_false] at hcontra
        repeat' split at hcontra
        all_goals simp_all

theorem feedback_form_rate (hm : String → String) (now : Int)
    (ip idea_id signature : String) (st : ServerState) :
    (feedback_form hm now ip idea_id signature st).2.rate =
      (check_rate_limit now ip st.rate).2 ∧
    ((feedback_form hm now ip idea_id signature st).1 = .rateLimited ↔
      (check_rate_limit now ip st.rate).1 = false) := by
  cases hadm : (check_rate_limit now ip st.rate).1
  · constructor <;> simp [feedback_form, hadm]
  · constructor
    · simp only [feedback_form, hadm, Bool.not_true, Bool.false_eq_true,
        if_false]
      repeat' split
      all_goals simp
    · simp only [hadm, Bool.true_eq_false, iff_false]
      intro hcontra
      simp only [feedback_form, hadm, Bool.not_true, Bool.false_eq_true,
        if_false] at hcontra
      repeat' split at hcontra
      all_goals simp_all [previewFromIdeas]
      all_goals (repeat' split at hcontra) <;> simp_all

theorem import_recipe_rate (hm : String → String) (up : UpstreamOutcome)
    (now : Int) (ip : String) (req : Option SubmitBody) (st : ServerState) :
    (import_recipe hm up now ip req st).2.rate =
      (check_rate_limit now ip st.rate).2 ∧
    ((import_recipe hm up now ip req st).1 = .rateLimited ↔
      (check_rate_limit now ip st.rate).1 = false) := by
  cases hadm : (check_rate_limit now ip st.rate).1
  · constructor <;> simp [import_recipe, hadm]
  · rcases req with - | b
    · constructor <;> simp [import_recipe, hadm]
    · constructor
      · simp only [import_recipe, hadm, Bool.not_true, Bool.false_eq_true,
          if_false]
        repeat' split
        all_goals simp
      · simp only [hadm, Bool.true_eq_false, iff_false]
        intro hcontra
        simp only [import_recipe, hadm, Bool.not_true, Bool.false_eq_true,
          if_false] at hcontra
        repeat' split at hcontra
        all_goals simp_all [importFromIdeas]
        all_goals (repeat' split at hcontra) <;> simp_all

/-- Every endpoint draws on the same per-identity bucket, and an
endpoint answers 429 exactly when `check_rate_limit` denies. -/
theorem handleRequest_rate (hm md5 : String → String) (up : UpstreamOutcome)
    (now : Int) (nowIso ip : String) (e : Endpoint) (st : ServerState) :
    (handleRequest hm md5 up now nowIso ip e st).2.rate =
      (check_rate_limit now ip st.rate).2 ∧
    ((handleRequest hm md5 up now nowIso ip e st).1 = 429 ↔
      (check_rate_limit now ip st.rate).1 = false) := by
  cases e with
  | preview idea_id signature =>
    have h := feedback_form_rate hm now ip idea_id signature st
    refine ⟨h.1, ?_⟩
    rw [show (handleRequest hm md5 up now nowIso ip (.preview idea_id signature)
      st).1 = (feedback_form hm now ip idea_id signature st).1.status from rfl]
    rw [preview_status_429_iff]
    exact h.2
  | submit req =>
    have h := submit_feedback_rate hm md5 now nowIso ip req st
    refine ⟨h.1, ?_⟩
    rw [show (handleRequest hm md5 up now nowIso ip (.submit req) st).1 =
      (submit_feedback hm md5 now nowIso ip req st).1.status from rfl]
    rw [submit_status_429_iff]
    exact h.2
  | importRecipe req =>
    have h := import_recipe_rate hm up now ip req st
    refine ⟨h.1, ?_⟩
    rw [show (handleRequest hm md5 up now nowIso ip (.importRecipe req) st).1 =
      (import_recipe hm up now ip req st).1.status from rfl]
    rw [import_status_429_iff]
    exact h.2

theorem runRequests_all_admitted (hm md5 : String → String)
    (up : UpstreamOutcome) (nowIso ip : String) (lo : Int) :
    ∀ (reqs : List (Endpoint × Int)) (st : ServerState) (prev : List Int),
    st.rate ip = prev →
    (∀ t ∈ prev, lo ≤ t) →
    (∀ p ∈ reqs, lo ≤ p.2 ∧ p.2 < lo + 3600) →
    prev.length + reqs.length ≤ 10 →
    (∀ s ∈ (runRequests hm md5 up nowIso ip reqs st).1, s ≠ 429) ∧
    (runRequests hm md5 up nowIso ip reqs st).2.rate ip =
      prev ++ reqs.map Prod.snd := by
  intro reqs
  induction reqs with
  | nil =>
    intro st prev hprev hlo hwin hlen
    constructor
    · intro s hs
      simp [runRequests] at hs
    · simpa [runRequests] using hprev
  | cons p rest ih =>
    obtain ⟨e, t⟩ := p
    intro st prev hprev hlo hwin hlen
    have hkeep : (st.rate ip).filter (fun u => t - u < RATE_LIMIT_WINDOW) =
        prev := by
      rw [hprev]
      apply List.filter_eq_self.mpr
      intro u hu
      have h1 := hlo u hu
      have h2 := (hwin (e, t) (by simp)).2
      simp only [RATE_LIMIT_WINDOW, decide_eq_true_eq]
      omega
    have hlen1 : prev.length + (rest.length + 1) ≤ 10 := by
      simpa using hlen
    have hlt : prev.length < RATE_LIMIT_MAX := by
      show prev.length < 10
      omega
    have hadm : check_rate_limit t ip st.rate =
        (true, st.rate.update ip (prev ++ [t])) := by
      unfold check_rate_limit
      rw [hkeep, if_neg (not_le.mpr hlt)]
    have hhr := handleRequest_rate hm md5 up t nowIso ip e st
    have hst : (handleRequest hm md5 up t nowIso ip e st).1 ≠ 429 := by
      rw [Ne, hhr.2, hadm]
      simp
    have hrate : (handleRequest hm md5 up t nowIso ip e st).2.rate ip =
        prev ++ [t] := by
      rw [hhr.1, hadm]
      exact RateStore.update_same _ _ _
    obtain ⟨hok, hfin⟩ := ih (handleRequest hm md5 up t nowIso ip e st).2
      (prev ++ [t]) hrate
      (by
        intro u hu
        rcases List.mem_append.mp hu with h | h
        · exact hlo u h
        · have := (hwin (e, t) (by simp)).1
          simp at h
          omega)
      (by
        intro q hq
        exact hwin q (by simp [hq]))
      (by simp; omega)
    constructor
    · intro s hs
      simp only [runRequests, List.mem_cons] at hs
      rcases hs with rfl | hs
      · exact hst
      · exact hok s hs
    · simp only [runRequests]
      rw [hfin, List.append_assoc]
      simp

/-- C9: the three rate-limited endpoints (feedback-form preview GET,
feedback submission POST, recipe-import POST) draw on one shared
per-identity budget: any mix of 10 requests inside a 3600s window from
an empty bucket is admitted (none answers 429) and records into the
same bucket, after which an 11th request to any of the three endpoints
inside the window is denied with 429. -/
theorem shared_rate_limit_budget (hm md5 : String → String)
    (up : UpstreamOutcome) (nowIso ip : String) (lo t11 : Int)
    (reqs : List (Endpoint × Int)) (e11 : Endpoint) (st : ServerState)
    (hbucket : st.rate ip = [])
    (hlen : reqs.length = 10)
    (hwin : ∀ p ∈ reqs, lo ≤ p.2 ∧ p.2 < lo + 3600)
    (hw1 : lo ≤ t11) (hw2 : t11 < lo + 3600) :
    (∀ s ∈ (runRequests hm md5 up nowIso ip reqs st).1, s ≠ 429) ∧
    (handleRequest hm md5 up t11 nowIso ip e11
      (runRequests hm md5 up nowIso ip reqs st).2).1 = 429 := by
  obtain ⟨hok, hrate⟩ := runRequests_all_admitted hm md5 up nowIso ip lo reqs
    st [] hbucket (by simp) hwin (by simp [hlen])
  refine ⟨hok, ?_⟩
  have hfilter : (((runRequests hm md5 up nowIso ip reqs st).2.rate ip).filter
      (fun u => t11 - u < RATE_LIMIT_WINDOW)) = reqs.map Prod.snd := by
    rw [hrate]
    simp only [List.nil_append]
    apply List.filter_eq_self.mpr
    intro u hu
    obtain ⟨q, hq, rfl⟩ := List.mem_map.mp hu
    have := hwin q hq
    simp only [RATE_LIMIT_WINDOW, decide_eq_true_eq]
    omega
  have hdeny : (check_rate_limit t11 ip
      (runRequests hm md5 up nowIso ip reqs st).2.rate).1 = false := by
    unfold check_rate_limit
    rw [hfilter, if_pos (by simp [hlen, RATE_LIMIT_MAX])]
  exact (handleRequest_rate hm md5 up t11 nowIso ip e11 _).2.mpr hdeny

/-- A concrete mixed 10-request trace for the C9 witness. -/
def reqs0 : List (Endpoint × Int) :=
  [(.preview idC sig0, 0), (.submit (some (bodyR 5)), 1),
   (.importRecipe none, 2), (.preview "photo_x" "deadbeef", 3),
   (.submit none, 4), (.importRecipe (some (bodyR 1)), 5),
   (.preview idC "0000000000000000", 6), (.submit (some (bodyR 9)), 7),
   (.importRecipe none, 8), (.preview idC sig0, 9)]

/-- Witness for C9 at a concrete mixed trace: 10 requests of all three
kinds inside the window, then a submit at t=100 denied with 429. -/
theorem shared_rate_limit_budget_witness :
    (∀ s ∈ (runRequests hmacHex0 md5Hex0 (UpstreamOutcome.ok true "Rezept")
      "2025-01-01T08:00:00" ip0 reqs0 stScen).1, s ≠ 429) ∧
    (handleRequest hmacHex0 md5Hex0 (UpstreamOutcome.ok true "Rezept") 100
      "2025-01-01T08:00:00" ip0 (Endpoint.submit (some (bodyR 2)))
      (runRequests hmacHex0 md5Hex0 (UpstreamOutcome.ok true "Rezept")
        "2025-01-01T08:00:00" ip0 reqs0 stScen).2).1 = 429 :=
  shared_rate_limit_budget hmacHex0 md5Hex0 (UpstreamOutcome.ok true "Rezept")
    "2025-01-01T08:00:00" ip0 0 100 reqs0 (Endpoint.submit (some (bodyR 2)))
    stScen (by decide) (by decide) (by decide) (by decide) (by decide)

/-! ## C10: graceful preview for absent ids and bad files -/

/-- C10: for an admitted preview request with an enumerated category
and a matching signature, a missing backing file, an unparsable file,
or an id absent from the parsed partition all render the defaults —
`feedback_count = 0`, no average, no preview — with status 200 rather
than NotFound, and the stored files are untouched (the handler only
reads). -/
theorem preview_graceful (hm : String → String) (now : Int)
    (ip idea_id signature : String) (st : ServerState)
    (hadm : (check_rate_limit now ip st.rate).1 = true)
    (hsig : verify_signature hm idea_id signature = true)
    (hcat : categoryOf idea_id ∈ FILE_MAP_keys)
    (habsent : match st.files (categoryOf idea_id) with
      | FileState.missing => True
      | FileState.unparsable => True
      | FileState.unwritable ideas => findIdea ideas idea_id = none
      | FileState.parsed ideas => findIdea ideas idea_id = none) :
    (feedback_form hm now ip idea_id signature st).1 =
      PreviewResult.render idea_id signature (categoryOf idea_id) none 0 none ∧
    ((feedback_form hm now ip idea_id signature st).1).status = 200 ∧
    (feedback_form hm now ip idea_id signature st).2.files = st.files := by
  rcases hfs : st.files (categoryOf idea_id) with - | - | ideas | ideas <;>
    simp only [hfs] at habsent
  · refine ⟨?_, ?_, ?_⟩ <;>
      simp [feedback_form, hadm, hsig, hcat, hfs, PreviewResult.status]
  · refine ⟨?_, ?_, ?_⟩ <;>
      simp [feedback_form, hadm, hsig, hcat, hfs, PreviewResult.status]
  · refine ⟨?_, ?_, ?_⟩ <;>
      simp [feedback_form, hadm, hsig, hcat, hfs, previewFromIdeas, habsent,
        PreviewResult.status]
  · refine ⟨?_, ?_, ?_⟩ <;>
      simp [feedback_form, hadm, hsig, hcat, hfs, previewFromIdeas, habsent,
        PreviewResult.status]

/-- Witness for C10: an id absent from the parsed cooking partition
previews with count 0 and no preview text. -/
theorem preview_graceful_witness :
    (feedback_form hmacHex0 0 ip0 "cooking_9999" sig0 stScen).1 =
      PreviewResult.render "cooking_9999" sig0 (categoryOf "cooking_9999")
        none 0 none ∧
    ((feedback_form hmacHex0 0 ip0 "cooking_9999" sig0 stScen).1).status = 200 ∧
    (feedback_form hmacHex0 0 ip0 "cooking_9999" sig0 stScen).2.files =
      stScen.files :=
  preview_graceful hmacHex0 0 ip0 "cooking_9999" sig0 stScen (by decide)
    (by decide) (by decide)
    (show findIdea [recFresh] "cooking_9999" = none by decide)

/-! ## C1: lost update under overlapping appends -/

theorem appendToIdeas_findIdea_other (ideas : List IdeaRecord)
    (idea_id : String) (fb : Feedback) (out : List IdeaRecord × Nat × ℚ)
    (h : appendToIdeas ideas idea_id fb = some out) (k : String)
    (hk : k ≠ idea_id) :
    findIdea out.1 k = findIdea ideas k := by
  induction ideas generalizing out with
  | nil => simp [appendToIdeas] at h
  | cons r rest ih =>
    by_cases hid : r.id = idea_id
    · obtain ⟨o1, o2, o3⟩ := out
      simp only [appendToIdeas, if_pos hid, Option.some.injEq,
        Prod.mk.injEq] at h
      obtain ⟨h1, -, -⟩ := h
      subst h1
      have hrk : ¬ (r.id = k) := by
        rw [hid]
        exact fun hh => hk hh.symm
      simp [findIdea, hrk]
    · simp only [appendToIdeas, if_neg hid] at h
      cases hap : appendToIdeas rest idea_id fb with
      | none =>
        rw [hap] at h
        simp at h
      | some v =>
        rw [hap] at h
        obtain ⟨l, c, a⟩ := v
        obtain rfl : (r :: l, c, a) = out := by
          simp only [Option.some.injEq] at h
          exact h
        have := ih (l, c, a) hap
        by_cases hrk : r.id = k <;>
          · rw [show ((r :: l, c, a) : List IdeaRecord × Nat × ℚ).1 = r :: l
              from rfl]
            simp [findIdea, hrk, this]

def fbW : Feedback :=
  { rating := 4, comment := "", implemented := false,
    submitted_at := "2025-01-01T08:00:00", ip_hash := "d41d8cd9" }

def recA : IdeaRecord :=
  { id := "photo_2025-01-01_aaaaaaaa", date := "2025-01-01",
    challenge := "Licht und Schatten", feedbacks := [] }

def recB : IdeaRecord :=
  { id := "photo_2025-01-01_bbbbbbbb", date := "2025-01-01",
    challenge := "Spiegelungen", feedbacks := [] }

/-- C1 (code bug): `submit_feedback`'s read-modify-write cycle takes no
lock, so two overlapping requests can both read the same initial file;
both report success with `feedback_count = 1`, yet the final file holds
only the second append — the first record's feedback entry is lost
(its stored count is 0). -/
theorem concurrent_append_lost_update :
    ∃ outA outB final,
      concurrentAppendsRun [recA, recB] recA.id fbW recB.id fbW =
        some (outA, outB, final) ∧
      outA.1 = 1 ∧ outB.1 = 1 ∧
      feedbackCountOf final recA.id = 0 ∧
      feedbackCountOf final recB.id = 1 := by
  obtain ⟨iA, hapA, -⟩ := appendToIdeas_of_findIdea [recA, recB] recA.id fbW
    recA (by decide)
  obtain ⟨iB, hapB, hfindB⟩ := appendToIdeas_of_findIdea [recA, recB] recB.id
    fbW recB (by decide)
  refine ⟨(recA.feedbacks.length + 1,
      ((recA.feedbacks ++ [fbW]).map (fun f => (f.rating : ℚ))).sum /
        ((recA.feedbacks.length + 1 : Nat) : ℚ)),
    (recB.feedbacks.length + 1,
      ((recB.feedbacks ++ [fbW]).map (fun f => (f.rating : ℚ))).sum /
        ((recB.feedbacks.length + 1 : Nat) : ℚ)),
    iB, ?_, ?_, ?_, ?_, ?_⟩
  · simp [concurrentAppendsRun, hapA, hapB]
  · simp [recA]
  · simp [recB]
  · have hother := appendToIdeas_findIdea_other [recA, recB] recB.id fbW _
      hapB recA.id (by decide)
    simp only [feedbackCountOf]
    rw [show (findIdea iB recA.id) = findIdea [recA, recB] recA.id from hother]
    simp [findIdea, recA, recB]
  · simp only [feedbackCountOf]
    rw [hfindB]
    simp [recB]

/-! ## C4: crash behavior of the in-place persist -/

/-- C4 counterexample: the in-place rewrite (seek to 0, write the new
serialization, truncate) is not a crash-safe replace: with old content
`AB` and new content `CD`, dying after one written character leaves
`CB`, which is neither the old nor the new content. -/
theorem persist_not_crash_safe_cex :
    ¬ CrashSafeReplace "AB".data "CD".data ∧
    persistCrashState "AB".data "CD".data 1 = "CB".data := by
  constructor
  · intro h
    rcases h 1 (by decide) with h1 | h1 <;> revert h1 <;> decide
  · decide

/-- C4 (amended): the persist rewrites the backing file in place, so a
crash after `k` written characters leaves the first `k` characters of
the new content over the tail of the old — which can be neither the
old nor the new content; but the failures detected around the write —
unparsable JSON (`JSONDecodeError` → 500) and a write-permission
failure at open (`PermissionError` → 500) — leave the stored files
untouched. -/
theorem persist_error_paths_state_intact (hm md5 : String → String)
    (now : Int) (nowIso ip : String) (b : SubmitBody) (st : ServerState)
    (r : Int)
    (hadm : (check_rate_limit now ip st.rate).1 = true)
    (hsig : verify_signature hm b.idea_id b.signature = true)
    (hcat : categoryOf b.idea_id ∈ FILE_MAP_keys)
    (hr : b.rating = some r) (h1 : 1 ≤ r) (h5 : r ≤ 5) :
    (st.files (categoryOf b.idea_id) = FileState.unparsable →
      (submit_feedback hm md5 now nowIso ip (some b) st).1 = .readError ∧
      (submit_feedback hm md5 now nowIso ip (some b) st).2.files = st.files) ∧
    (∀ ideas, st.files (categoryOf b.idea_id) = FileState.unwritable ideas →
      (submit_feedback hm md5 now nowIso ip (some b) st).1 = .permissionError ∧
      (submit_feedback hm md5 now nowIso ip (some b) st).2.files = st.files) ∧
    (∃ old new k, k ≤ new.length ∧
      persistCrashState old new k ≠ old ∧
      persistCrashState old new k ≠ new) := by
  refine ⟨?_, ?_, "AB".data, "CD".data, 1, by decide, by decide, by decide⟩
  · intro hfile
    constructor <;>
      simp [submit_feedback, hadm, hsig, hcat, hr, h1, h5, hfile]
  · intro ideas hfile
    constructor <;>
      simp [submit_feedback, hadm, hsig, hcat, hr, h1, h5, hfile]

/-- A state whose cooking file is unparsable. -/
def stBad : ServerState :=
  { rate := RateStore.empty,
    files := fun k => if k = "cooking" then FileState.unparsable
      else FileState.missing }

/-- Witness for C4: an unparsable cooking file yields 500 and the
stored files are unchanged. -/
theorem persist_error_paths_witness :
    (submit_feedback hmacHex0 md5Hex0 0 "2025-01-01T08:00:00" ip0
      (some (bodyR 2)) stBad).1 = SubmitResult.readError ∧
    (submit_feedback hmacHex0 md5Hex0 0 "2025-01-01T08:00:00" ip0
      (some (bodyR 2)) stBad).2.files = stBad.files :=
  (persist_error_paths_state_intact hmacHex0 md5Hex0 0 "2025-01-01T08:00:00"
    ip0 (bodyR 2) stBad 2 (by decide) (by decide) (by decide) rfl
    (by norm_num) (by norm_num)).1 (by decide)

end FotoIdeas
